import Mathlib

/-!
Verification of the covid-dashboard data pipeline (`src/app.py`).

The development shallowly embeds the data-processing core of the dashboard:
`load_data` (sort by (location, date), fill missing counts with zero, per-country
trailing 7-day mean of `new_cases` with pandas `min_periods=1` semantics), the
per-interaction filter of `update_graph` (the query engine), the wave-preset
resolver `update_date_range`, the annotation block of `update_graph`, and the
overall figure-producing shape of `update_graph` including its error handling.

Dates are embedded as natural numbers in `yyyymmdd` form (order-isomorphic to
calendar order for valid dates); case counts (float32 in the source) are
embedded as rationals.
-/

namespace CovidDashboard

/-- A raw CSV row as read by `pd.read_csv` with `usecols` restricted to
`location, date, total_cases, new_cases`: the two count columns may be missing
(`NaN`), the date is already parsed. -/
structure RawRow where
  location : String
  date : Nat
  total_cases : Option ℚ
  new_cases : Option ℚ
deriving DecidableEq

/-- A row after `fillna(0)` on both count columns. -/
structure Row where
  location : String
  date : Nat
  total_cases : ℚ
  new_cases : ℚ
deriving DecidableEq

/-- A fully processed row, including the derived trailing 7-day average column
`new_cases_avg`. -/
structure DailyRecord where
  location : String
  date : Nat
  total_cases : ℚ
  new_cases : ℚ
  new_cases_avg : ℚ
deriving DecidableEq

/-- Embedding of `df.fillna(0)` on the two count columns of one row. -/
def fill (r : RawRow) : Row :=
  ⟨r.location, r.date, r.total_cases.getD 0, r.new_cases.getD 0⟩

/-- The comparison used by `df.sort_values(['location', 'date'])`:
lexicographic on the (location, date) key. -/
def rawKeyLe (a b : RawRow) : Prop :=
  a.location < b.location ∨ (a.location = b.location ∧ a.date ≤ b.date)

instance : DecidableRel rawKeyLe := fun a b => by
  unfold rawKeyLe; infer_instance

instance : IsTotal RawRow rawKeyLe where
  total a b := by
    unfold rawKeyLe
    rcases lt_trichotomy a.location b.location with h | h | h
    · exact Or.inl (Or.inl h)
    · rcases Nat.le_total a.date b.date with hd | hd
      · exact Or.inl (Or.inr ⟨h, hd⟩)
      · exact Or.inr (Or.inr ⟨h.symm, hd⟩)
    · exact Or.inr (Or.inl h)

instance : IsTrans RawRow rawKeyLe where
  trans a b c hab hbc := by
    unfold rawKeyLe at *
    rcases hab with h1 | ⟨h1, d1⟩
    · rcases hbc with h2 | ⟨h2, _⟩
      · exact Or.inl (lt_trans h1 h2)
      · exact Or.inl (h2 ▸ h1)
    · rcases hbc with h2 | ⟨h2, d2⟩
      · exact Or.inl (h1 ▸ h2)
      · exact Or.inr ⟨h1.trans h2, le_trans d1 d2⟩

/-- Embedding of `df.sort_values(['location', 'date'])`, a stable sort on the
(location, date) key. -/
def sortRows (rows : List RawRow) : List RawRow :=
  List.insertionSort rawKeyLe rows

/-- The last `n` elements of a list (the trailing rolling window). -/
def lastN (n : Nat) (l : List α) : List α :=
  l.drop (l.length - n)

/-- Arithmetic mean of a list of rationals. -/
def mean (l : List ℚ) : ℚ :=
  l.sum / (l.length : ℚ)

/-- Build a processed record from a filled row and its derived average. -/
def mkRec (r : Row) (avg : ℚ) : DailyRecord :=
  ⟨r.location, r.date, r.total_cases, r.new_cases, avg⟩

/-- The `groupby('location') ... rolling(window=7, min_periods=1).mean()`
transform: each row's `new_cases_avg` is the mean of the trailing window of at
most 7 `new_cases` values taken over the rows of the *same location* seen so
far (`pre` is the list of rows already processed, in order). -/
def withAvgAux (pre : List Row) : List Row → List DailyRecord
  | [] => []
  | r :: rest =>
      mkRec r (mean (lastN 7
          (((pre ++ [r]).filter (fun x => decide (x.location = r.location))).map Row.new_cases)))
        :: withAvgAux (pre ++ [r]) rest

/-- Embedding of `load_data` (src/app.py:50-77): sort by (location, date), fill missing
counts with zero, add the per-location trailing 7-day mean column. -/
def load_data (rows : List RawRow) : List DailyRecord :=
  withAvgAux [] ((sortRows rows).map fill)

/-- Embedding of `df['location'].unique()` then `sorted(...)` (src/app.py:80-83), as the
sorted deduplicated list of locations. -/
def get_countries (d : List DailyRecord) : List String :=
  List.insertionSort (· ≤ ·) (d.map DailyRecord.location).dedup

/-- The rows of one country, in dataset order: `df[df["location"] == country]`. -/
def countryRows (d : List DailyRecord) (c : String) : List DailyRecord :=
  d.filter (fun r => decide (r.location = c))

/-- The per-interaction filter of `update_graph` (src/app.py:424-425):
`df[df["location"] == country]` then the inclusive date-interval mask. -/
def query (d : List DailyRecord) (c : String) (s e : Nat) : List DailyRecord :=
  (d.filter (fun r => decide (r.location = c))).filter
    (fun r => decide (s ≤ r.date) && decide (r.date ≤ e))

/-- The query step as a state transformer over the process-wide dataset: the
source callback reads the module-level `df` and never reassigns it (it filters
into a fresh copy), so the dataset component is returned unchanged. -/
def queryS (d : List DailyRecord) (c : String) (s e : Nat) :
    List DailyRecord × List DailyRecord :=
  (d, query d c s e)

/-- One emitted chart annotation: anchor date, anchor y-value, label text. -/
structure Anno where
  date : Nat
  value : ℚ
  label : String
deriving DecidableEq

/-- The plotted metric column. -/
inductive Metric where
  | total_cases
  | new_cases
  | new_cases_avg
deriving DecidableEq

/-- Field lookup `record[metric]`. -/
def metricValue (r : DailyRecord) : Metric → ℚ
  | .total_cases => r.total_cases
  | .new_cases => r.new_cases
  | .new_cases_avg => r.new_cases_avg

/-- Value of `pd.Timestamp("2022-01-10")`, the Omicron event date. -/
def omicronDate : Nat := 20220110

/-- Value of `pd.Timestamp("2021-08-15")`, the Delta event date. -/
def deltaDate : Nat := 20210815

/-- Embedding of `filtered_df[filtered_df["date"] >= d].head(1)` (src/app.py:488, 508): the
first record of the filtered series at or after a given date, if any. -/
def firstAtOrAfter (filtered : List DailyRecord) (d : Nat) : Option DailyRecord :=
  (filtered.filter (fun r => decide (d ≤ r.date))).head?

/-- One event's annotation block (src/app.py:487-503 and 506-522): if the event
date lies inside the selected interval and the filtered series has a record at
or after it, emit one anchor at that record's (date, metric value). -/
def eventAnno (filtered : List DailyRecord) (m : Metric) (s e : Nat)
    (evDate : Nat) (label : String) : List Anno :=
  if s ≤ evDate ∧ evDate ≤ e then
    match firstAtOrAfter filtered evDate with
    | some r => [⟨r.date, metricValue r m, label⟩]
    | none => []
  else []

/-- The whole annotation step of `update_graph` (src/app.py:485-522): gated on
the annotations toggle, the hardcoded country "United States", and fewer than
500 filtered rows; the Omicron block runs before the Delta block. -/
def annotate (showAnn : List String) (country : String)
    (filtered : List DailyRecord) (m : Metric) (s e : Nat) : List Anno :=
  if "show" ∈ showAnn ∧ country = "United States" ∧ filtered.length < 500 then
    eventAnno filtered m s e omicronDate "Omicron Wave" ++
      eventAnno filtered m s e deltaDate "Delta Wave"
  else []

/-- The default date range returned by `update_date_range` when no known wave
button triggered the callback. -/
def defaultRange : String × String := ("2020-01-01", "2024-01-01")

/-- Embedding of `update_date_range` (src/app.py:376-390): maps the triggering wave button
(`none` models `not ctx.triggered`) to its fixed date interval, with a
permissive fallback to the default interval. -/
def update_date_range (triggered : Option String) : String × String :=
  match triggered with
  | none => defaultRange
  | some bid =>
      if bid = "first-wave-btn" then ("2020-03-01", "2020-06-30")
      else if bid = "delta-wave-btn" then ("2021-06-01", "2021-11-30")
      else if bid = "omicron-wave-btn" then ("2021-12-15", "2022-03-31")
      else defaultRange

/-- Python truthiness of an optional string (`if not country or not metric`). -/
def truthy : Option String → Bool
  | none => false
  | some s => !(decide (s = ""))

/-- One decimal digit of a date string. -/
def digitVal (c : Char) : Option Nat :=
  if c.isDigit then some (c.toNat - 48) else none

/-- Model of `pd.to_datetime` on `YYYY-MM-DD` strings: parses to the `yyyymmdd`
numeral, `none` (an exception in the source) on anything malformed. -/
def parseDate (str : String) : Option Nat :=
  match str.toList with
  | [y1, y2, y3, y4, '-', m1, m2, '-', d1, d2] =>
      match digitVal y1, digitVal y2, digitVal y3, digitVal y4,
            digitVal m1, digitVal m2, digitVal d1, digitVal d2 with
      | some a, some b, some c, some d, some e, some f, some g, some h =>
          let y := ((a * 10 + b) * 10 + c) * 10 + d
          let mo := e * 10 + f
          let da := g * 10 + h
          if 1 ≤ mo ∧ mo ≤ 12 ∧ 1 ≤ da ∧ da ≤ 31 then
            some (y * 10000 + mo * 100 + da)
          else none
      | _, _, _, _, _, _, _, _ => none
  | _ => none

/-- The figure returned by `update_graph`: the "please select" placeholder, the
empty-state figure, a real chart, or the error figure built in the `except`
handler. -/
inductive Figure where
  | pleaseSelect
  | noData (msg : String)
  | chart (title : String) (points : List (Nat × ℚ)) (markers : Bool)
      (logScale : Bool) (annotations : List Anno)
  | errorFig (msg : String)
deriving DecidableEq

/-- The message of the exception raised by `pd.to_datetime` on a bad date. -/
def dateErrMsg (s : String) : String :=
  "Unknown datetime string format: " ++ s

/-- The message of the `KeyError` raised by `filtered_df[metric]` on an unknown
metric name. -/
def keyErrMsg (m : String) : String :=
  "'" ++ m ++ "'"

/-- Resolution of the metric dropdown string to a column of the dataframe;
`none` models the `KeyError` of `filtered_df[metric]` on an unknown name. -/
def metricOf : String → Option Metric
  | "total_cases" => some Metric.total_cases
  | "new_cases" => some Metric.new_cases
  | "new_cases_avg" => some Metric.new_cases_avg
  | _ => none

/-- The body of `update_graph` (src/app.py:403-527), i.e. the `try` block:
short-circuit to the "please select" figure on a falsy country or metric, parse
the two date strings (fallible), filter, return the empty-state figure on an
empty result, resolve the metric column (fallible), and otherwise build the
chart with its mode, scale and annotations. -/
def update_graph_body (data : List DailyRecord) (country metric : Option String)
    (startS endS : String) (showAnn showMarkers logToggle : List String) :
    Except String Figure :=
  if truthy country = false ∨ truthy metric = false then
    Except.ok Figure.pleaseSelect
  else
    match parseDate startS with
    | none => Except.error (dateErrMsg startS)
    | some s =>
        match parseDate endS with
        | none => Except.error (dateErrMsg endS)
        | some e =>
            if query data (country.getD "") s e = [] then
              Except.ok (Figure.noData
                ("No data available for " ++ country.getD "" ++ " in selected date range"))
            else
              match metricOf (metric.getD "") with
              | none => Except.error (keyErrMsg (metric.getD ""))
              | some m =>
                  Except.ok (Figure.chart (metric.getD "" ++ " in " ++ country.getD "")
                    ((query data (country.getD "") s e).map (fun r => (r.date, metricValue r m)))
                    (showMarkers.contains "show") (logToggle.contains "log")
                    (annotate showAnn (country.getD "")
                      (query data (country.getD "") s e) m s e))

/-- Embedding of `update_graph` (src/app.py:403-539): the body wrapped in the
`try/except` boundary that converts any fault into the error figure titled
`f"Error: {str(e)}"`. -/
def update_graph (data : List DailyRecord) (country metric : Option String)
    (startS endS : String) (showAnn showMarkers logToggle : List String) : Figure :=
  match update_graph_body data country metric startS endS showAnn showMarkers logToggle with
  | Except.ok fig => fig
  | Except.error msg => Figure.errorFig ("Error: " ++ msg)

/-- Reference form of the per-location rolling computation: process a single
location's rows in order, `hist` being the `new_cases` values of that
location's earlier rows. -/
def rollAux (hist : List ℚ) : List Row → List DailyRecord
  | [] => []
  | r :: rest =>
      mkRec r (mean (lastN 7 (hist ++ [r.new_cases])))
        :: rollAux (hist ++ [r.new_cases]) rest

/-- A default record, used only as the out-of-range value of `List.getD`. -/
def noRecord : DailyRecord := ⟨"", 0, 0, 0, 0⟩

/-- The 8-day single-country series used by the spec's rolling-average example:
`new_cases = [10,0,0,0,0,0,0,70]` on 8 consecutive days (one missing
`total_cases` cell, exercising zero-filling). -/
def exRows : List RawRow :=
  [⟨"X", 20200101, some 100, some 10⟩, ⟨"X", 20200102, some 100, some 0⟩,
   ⟨"X", 20200103, some 100, some 0⟩, ⟨"X", 20200104, some 100, some 0⟩,
   ⟨"X", 20200105, some 100, some 0⟩, ⟨"X", 20200106, some 100, some 0⟩,
   ⟨"X", 20200107, some 100, some 0⟩, ⟨"X", 20200108, none, some 70⟩]

/-- The dataset ordering invariant: lexicographic on the (location, date) key
of processed records (what `sort_values(['location', 'date'])` establishes). -/
def recLe (a b : DailyRecord) : Prop :=
  a.location < b.location ∨ (a.location = b.location ∧ a.date ≤ b.date)

instance : DecidableRel recLe := fun a b => by
  unfold recLe; infer_instance

/-- A small post-load United States series used as concrete witness data: one
row before the Delta event date, one just after it, one after the Omicron
event date. -/
def usSeries : List DailyRecord :=
  [⟨"United States", 20210810, 100, 5, 5⟩,
   ⟨"United States", 20210816, 130, 30, 10⟩,
   ⟨"United States", 20220115, 500, 50, 20⟩]

theorem exRows_sorted : sortRows exRows = exRows :=
  List.Sorted.insertionSort_eq (by simp [exRows, List.pairwise_cons, rawKeyLe])

theorem filter_withAvgAux (l : List Row) (pre : List Row) (c : String) :
    (withAvgAux pre l).filter (fun d => decide (d.location = c))
      = rollAux ((pre.filter (fun x => decide (x.location = c))).map Row.new_cases)
          (l.filter (fun x => decide (x.location = c))) := by
  induction l generalizing pre with
  | nil => rfl
  | cons r rest ih =>
      by_cases hc : r.location = c
      · subst hc
        have hfa :
            ((pre ++ [r]).filter (fun x => decide (x.location = r.location))).map Row.new_cases
              = ((pre.filter (fun x => decide (x.location = r.location))).map Row.new_cases)
                  ++ [r.new_cases] := by
          simp [List.filter_append]
        rw [withAvgAux]
        rw [show (r :: rest).filter (fun x => decide (x.location = r.location))
              = r :: rest.filter (fun x => decide (x.location = r.location)) from by simp]
        rw [rollAux]
        rw [List.filter_cons_of_pos (by simp [mkRec])]
        rw [ih (pre ++ [r]), hfa]
      · rw [withAvgAux]
        rw [List.filter_cons_of_neg (by simp [mkRec, hc])]
        rw [ih (pre ++ [r])]
        rw [show (r :: rest).filter (fun x => decide (x.location = c))
              = rest.filter (fun x => decide (x.location = c)) from by simp [hc]]
        rw [show (pre ++ [r]).filter (fun x => decide (x.location = c))
              = pre.filter (fun x => decide (x.location = c)) from by
            simp [List.filter_append, hc]]

theorem rollAux_length (l : List Row) (hist : List ℚ) :
    (rollAux hist l).length = l.length := by
  induction l generalizing hist with
  | nil => rfl
  | cons r rest ih => simp [rollAux, ih]

theorem rollAux_map_new_cases (l : List Row) (hist : List ℚ) :
    (rollAux hist l).map DailyRecord.new_cases = l.map Row.new_cases := by
  induction l generalizing hist with
  | nil => rfl
  | cons r rest ih => simp [rollAux, mkRec, ih]

theorem rollAux_get (l : List Row) (hist : List ℚ) (i : Nat)
    (h : i < (rollAux hist l).length) :
    ((rollAux hist l).get ⟨i, h⟩).new_cases_avg
      = mean (lastN 7 (hist ++ (l.map Row.new_cases).take (i + 1))) := by
  induction l generalizing hist i with
  | nil => simp [rollAux] at h
  | cons r rest ih =>
      cases i with
      | zero => simp [rollAux, mkRec]
      | succ j =>
          have h' : j < (rollAux (hist ++ [r.new_cases]) rest).length := by
            simpa [rollAux] using h
          have step : ((rollAux hist (r :: rest)).get ⟨j + 1, h⟩).new_cases_avg
              = ((rollAux (hist ++ [r.new_cases]) rest).get ⟨j, h'⟩).new_cases_avg := rfl
          rw [step, ih (hist ++ [r.new_cases]) j h']
          simp [List.take_succ_cons]

theorem exRows_length7 : 7 < (countryRows (load_data exRows) "X").length := by
  rw [load_data, exRows_sorted]
  with_unfolding_all decide

/-- C1 (amended): for every country `C` and every index `i` into `C`'s
date-ordered rows, the derived `new_cases_avg[i]` equals the arithmetic mean of
`new_cases[max(0,i-6)..i]` taken over `C`'s own rows only — a trailing window
of at most 7 samples, fewer at the start, first value equal to itself, no
values from any other country. (The spec's numeric example is corrected: on
`new_cases = [10,0,0,0,0,0,0,70]` the day-8 average is `(0+0+0+0+0+0+70)/7 =
10`, not `80/7`; see the counterexample theorem.) -/
theorem claim_C1_new_cases_avg_window (rows : List RawRow) (c : String) (i : Nat)
    (h : i < (countryRows (load_data rows) c).length) :
    ((countryRows (load_data rows) c).get ⟨i, h⟩).new_cases_avg
      = mean ((((countryRows (load_data rows) c).map DailyRecord.new_cases).take (i + 1)).drop
          (i - 6)) := by
  have e : countryRows (load_data rows) c
      = rollAux [] (((sortRows rows).map fill).filter (fun x => decide (x.location = c))) := by
    have h0 := filter_withAvgAux ((sortRows rows).map fill) [] c
    simpa [countryRows, load_data] using h0
  revert h
  rw [e]
  intro h
  rw [rollAux_get, rollAux_map_new_cases, List.nil_append]
  rw [rollAux_length] at h
  congr 1
  rw [lastN]
  congr 1
  rw [List.length_take, List.length_map]
  omega

/-- C1 witness: the window theorem applied to the spec's own 8-day example
series, at day 8 (index 7). -/
theorem claim_C1_witness :
    ((countryRows (load_data exRows) "X").get ⟨7, exRows_length7⟩).new_cases_avg
      = mean ((((countryRows (load_data exRows) "X").map DailyRecord.new_cases).take (7 + 1)).drop
          (7 - 6)) :=
  claim_C1_new_cases_avg_window exRows "X" 7 exRows_length7

/-- C1 counterexample: on the spec's own example — country `"X"` with
`new_cases = [10,0,0,0,0,0,0,70]` on 8 consecutive days — the day-8 average
produced by the code is `(0+0+0+0+0+0+70)/7 = 10` (the trailing window holds
days 2..8 only), not the claimed `(10+0+0+0+0+0+70)/7 = 80/7 = 11.428571...`. -/
theorem claim_C1_counterexample :
    ((countryRows (load_data exRows) "X").getD 7 noRecord).new_cases_avg = 10 ∧
    ((countryRows (load_data exRows) "X").getD 7 noRecord).new_cases_avg ≠ (80 : ℚ) / 7 := by
  rw [load_data, exRows_sorted]
  with_unfolding_all decide

theorem eventAnno_filter_ne (filtered : List DailyRecord) (m : Metric)
    (s e d : Nat) (lab lab' : String) (hne : lab ≠ lab') :
    (eventAnno filtered m s e d lab).filter (fun a => decide (a.label = lab')) = [] := by
  rw [eventAnno]
  split
  · cases firstAtOrAfter filtered d <;> simp [hne]
  · rfl

theorem eventAnno_found (filtered : List DailyRecord) (m : Metric)
    (s e d : Nat) (lab : String) (r : DailyRecord)
    (h1 : s ≤ d) (h2 : d ≤ e) (hf : firstAtOrAfter filtered d = some r) :
    eventAnno filtered m s e d lab = [⟨r.date, metricValue r m, lab⟩] := by
  rw [eventAnno, if_pos ⟨h1, h2⟩, hf]

/-- C2: annotations are produced only for the hardcoded country
"United States" (zero anchors for any other country, "Canada" in particular);
and, with annotations enabled and fewer than 500 filtered rows, for each of the
two fixed events (Delta 2021-08-15 "Delta Wave", Omicron 2022-01-10
"Omicron Wave") whose date lies in the selected interval and for which the
filtered series has a record at or after the event date, exactly one anchor
with that label is emitted, at the first such record's (date, metric value). -/
theorem claim_C2_annotations_us_only (showAnn : List String)
    (filtered : List DailyRecord) (m : Metric) (s e : Nat) :
    (∀ c, c ≠ "United States" → annotate showAnn c filtered m s e = []) ∧
    (annotate showAnn "Canada" filtered m s e = []) ∧
    ("show" ∈ showAnn → filtered.length < 500 →
      (∀ r, s ≤ deltaDate → deltaDate ≤ e →
        firstAtOrAfter filtered deltaDate = some r →
        (annotate showAnn "United States" filtered m s e).filter
            (fun a => decide (a.label = "Delta Wave"))
          = [⟨r.date, metricValue r m, "Delta Wave"⟩]) ∧
      (∀ r, s ≤ omicronDate → omicronDate ≤ e →
        firstAtOrAfter filtered omicronDate = some r →
        (annotate showAnn "United States" filtered m s e).filter
            (fun a => decide (a.label = "Omicron Wave"))
          = [⟨r.date, metricValue r m, "Omicron Wave"⟩])) := by
  have honly : ∀ c, c ≠ "United States" → annotate showAnn c filtered m s e = [] := by
    intro c hc
    rw [annotate, if_neg]
    rintro ⟨_, hcc, _⟩
    exact hc hcc
  refine ⟨honly, honly "Canada" (by decide), ?_⟩
  intro hshow hlen
  constructor
  · intro r h1 h2 hf
    rw [annotate, if_pos ⟨hshow, rfl, hlen⟩, List.filter_append]
    rw [eventAnno_filter_ne filtered m s e omicronDate "Omicron Wave" "Delta Wave" (by decide)]
    rw [eventAnno_found filtered m s e deltaDate "Delta Wave" r h1 h2 hf]
    simp
  · intro r h1 h2 hf
    rw [annotate, if_pos ⟨hshow, rfl, hlen⟩, List.filter_append]
    rw [eventAnno_filter_ne filtered m s e deltaDate "Delta Wave" "Omicron Wave" (by decide)]
    rw [eventAnno_found filtered m s e omicronDate "Omicron Wave" r h1 h2 hf]
    simp

/-- C2 witness: on the concrete United States series with the interval
[2021-08-01, 2021-08-31], exactly one "Delta Wave" anchor is emitted at the
first record on/after 2021-08-15 (namely 2021-08-16 with total_cases 130), and
under identical inputs with country "Canada" zero anchors are emitted. -/
theorem claim_C2_witness :
    (annotate ["show"] "United States" usSeries Metric.total_cases 20210801 20210831).filter
        (fun a => decide (a.label = "Delta Wave"))
      = [⟨20210816, 130, "Delta Wave"⟩] ∧
    annotate ["show"] "Canada" usSeries Metric.total_cases 20210801 20210831 = [] :=
  ⟨(claim_C2_annotations_us_only ["show"] usSeries Metric.total_cases 20210801 20210831).2.2
      (by decide) (by decide) |>.1 ⟨"United States", 20210816, 130, 30, 10⟩
      (by decide) (by decide) (by decide),
   (claim_C2_annotations_us_only ["show"] usSeries Metric.total_cases 20210801 20210831).2.1⟩

/-- C3: whenever the filtered series has 500 or more rows, the annotation step
emits zero anchors, regardless of country, toggle, interval, or event-date
overlap. -/
theorem claim_C3_suppress_at_500 (showAnn : List String) (c : String)
    (filtered : List DailyRecord) (m : Metric) (s e : Nat)
    (hlen : 500 ≤ filtered.length) :
    annotate showAnn c filtered m s e = [] := by
  rw [annotate, if_neg]
  rintro ⟨_, _, hlt⟩
  omega

/-- C3 witness: a 500-row filtered series for "United States", with the full
default interval (which contains both event dates) and annotations enabled,
yields no anchors. -/
theorem claim_C3_witness :
    annotate ["show"] "United States" (List.replicate 500 noRecord)
      Metric.total_cases 20200101 20240101 = [] :=
  claim_C3_suppress_at_500 ["show"] "United States" (List.replicate 500 noRecord)
    Metric.total_cases 20200101 20240101 (by rw [List.length_replicate])

/-- C9: when both events are annotated in one recomputation (country
"United States", annotations on, fewer than 500 filtered rows, both event dates
inside the interval, matching records for both), the emitted annotation
sequence places the "Omicron Wave" anchor before the "Delta Wave" anchor. -/
theorem claim_C9_omicron_emitted_before_delta (showAnn : List String)
    (filtered : List DailyRecord) (m : Metric) (s e : Nat) (r1 r2 : DailyRecord)
    (hshow : "show" ∈ showAnn) (hlen : filtered.length < 500)
    (ho1 : s ≤ omicronDate) (ho2 : omicronDate ≤ e)
    (hd1 : s ≤ deltaDate) (hd2 : deltaDate ≤ e)
    (h1 : firstAtOrAfter filtered omicronDate = some r1)
    (h2 : firstAtOrAfter filtered deltaDate = some r2) :
    annotate showAnn "United States" filtered m s e
      = [⟨r1.date, metricValue r1 m, "Omicron Wave"⟩,
         ⟨r2.date, metricValue r2 m, "Delta Wave"⟩] := by
  rw [annotate, if_pos ⟨hshow, rfl, hlen⟩]
  rw [eventAnno_found filtered m s e omicronDate "Omicron Wave" r1 ho1 ho2 h1]
  rw [eventAnno_found filtered m s e deltaDate "Delta Wave" r2 hd1 hd2 h2]
  rfl

/-- C9 witness: on the concrete United States series with interval
[2021-08-01, 2022-02-01] covering both events, the annotation list is exactly
[Omicron anchor, Delta anchor] in that order. -/
theorem claim_C9_witness :
    annotate ["show"] "United States" usSeries Metric.total_cases 20210801 20220201
      = [⟨20220115, 500, "Omicron Wave"⟩, ⟨20210816, 130, "Delta Wave"⟩] :=
  claim_C9_omicron_emitted_before_delta ["show"] usSeries Metric.total_cases
    20210801 20220201 ⟨"United States", 20220115, 500, 50, 20⟩
    ⟨"United States", 20210816, 130, 30, 10⟩ (by decide) (by decide) (by decide)
    (by decide) (by decide) (by decide) (by decide) (by decide)

/-- C4: the query step returns exactly the rows with `location == country` and
`start ≤ date ≤ end` (both ends inclusive), preserving dataset order (hence
ascending date order whenever the dataset satisfies its (location, date)
sortedness invariant); any interval with `start > end` yields the empty
sequence, with no error possible. -/
theorem claim_C4_query_exact (data : List DailyRecord) (c : String) (s e : Nat) :
    (query data c s e
        = data.filter (fun r =>
            decide (r.location = c) && (decide (s ≤ r.date) && decide (r.date ≤ e)))) ∧
    (data.Pairwise recLe → (query data c s e).Pairwise (fun a b => a.date ≤ b.date)) ∧
    (e < s → query data c s e = []) := by
  refine ⟨?_, ?_, ?_⟩
  · rw [query, List.filter_filter]
    congr 1
    funext r
    cases decide (r.location = c) <;> cases decide (s ≤ r.date) <;>
      cases decide (r.date ≤ e) <;> rfl
  · intro hs
    have h2 : (query data c s e).Pairwise recLe := by
      rw [query]
      exact (hs.filter _).filter _
    refine h2.imp_of_mem ?_
    intro a b ha hb hab
    have ha' : a.location = c := by
      have hm := (List.mem_filter.mp (List.mem_filter.mp ha).1).2
      simpa using hm
    have hb' : b.location = c := by
      have hm := (List.mem_filter.mp (List.mem_filter.mp hb).1).2
      simpa using hm
    rcases hab with h | ⟨_, hd⟩
    · rw [ha', hb'] at h
      exact absurd h (lt_irrefl c)
    · exact hd
  · intro hse
    rw [query]
    refine List.filter_eq_nil_iff.mpr ?_
    intro a _
    simp only [Bool.and_eq_true, decide_eq_true_eq, not_and]
    intro h1 h2
    omega

/-- C4 witness: the exactness, order and empty-interval facts of the query
theorem instantiated on the concrete sorted United States series. -/
theorem claim_C4_witness :
    (query usSeries "United States" 20210801 20210831
        = usSeries.filter (fun r =>
            decide (r.location = "United States") &&
              (decide (20210801 ≤ r.date) && decide (r.date ≤ 20210831)))) ∧
    (query usSeries "United States" 20210801 20210831).Pairwise
        (fun a b => a.date ≤ b.date) ∧
    query usSeries "United States" 20210901 20210801 = [] :=
  ⟨(claim_C4_query_exact usSeries "United States" 20210801 20210831).1,
   (claim_C4_query_exact usSeries "United States" 20210801 20210831).2.1
     (by with_unfolding_all decide),
   (claim_C4_query_exact usSeries "United States" 20210901 20210801).2.2 (by decide)⟩

/-- C5: the query step never mutates the dataset — modelled as a state
transformer it returns the process-wide dataset unchanged, and a second query
with identical arguments, run on the state left by the first, returns the
identical sequence. -/
theorem claim_C5_query_no_mutation (d : List DailyRecord) (c : String) (s e : Nat) :
    (queryS d c s e).1 = d ∧
    (queryS (queryS d c s e).1 c s e).2 = (queryS d c s e).2 :=
  ⟨rfl, rfl⟩

/-- C6: the preset range resolver is the exact fixed table — first wave
[2020-03-01, 2020-06-30], delta [2021-06-01, 2021-11-30], omicron
[2021-12-15, 2022-03-31] — and every unknown or untriggered preset falls back
to the default interval [2020-01-01, 2024-01-01] instead of raising. -/
theorem claim_C6_preset_table :
    update_date_range (some "first-wave-btn") = ("2020-03-01", "2020-06-30") ∧
    update_date_range (some "delta-wave-btn") = ("2021-06-01", "2021-11-30") ∧
    update_date_range (some "omicron-wave-btn") = ("2021-12-15", "2022-03-31") ∧
    update_date_range none = ("2020-01-01", "2024-01-01") ∧
    ∀ bid : String, bid ≠ "first-wave-btn" → bid ≠ "delta-wave-btn" →
      bid ≠ "omicron-wave-btn" →
      update_date_range (some bid) = ("2020-01-01", "2024-01-01") := by
  refine ⟨rfl, rfl, rfl, rfl, ?_⟩
  intro bid h1 h2 h3
  simp [update_date_range, h1, h2, h3, defaultRange]

/-- C6 witness: an unknown preset name resolves to the default interval. -/
theorem claim_C6_witness :
    update_date_range (some "unknown") = ("2020-01-01", "2024-01-01") :=
  claim_C6_preset_table.2.2.2.2 "unknown" (by decide) (by decide) (by decide)

theorem withAvgAux_length (l : List Row) (pre : List Row) :
    (withAvgAux pre l).length = l.length := by
  induction l generalizing pre with
  | nil => rfl
  | cons r rest ih => simp [withAvgAux, ih]

theorem withAvgAux_map_fields (l : List Row) (pre : List Row) :
    (withAvgAux pre l).map (fun d => (d.location, d.date, d.total_cases, d.new_cases))
      = l.map (fun r => (r.location, r.date, r.total_cases, r.new_cases)) := by
  induction l generalizing pre with
  | nil => rfl
  | cons r rest ih => simp [withAvgAux, mkRec, ih]

/-- C7: after loading, every missing `total_cases` or `new_cases` cell has been
replaced by zero (rows are kept, not dropped: the row count is preserved), and
the resulting dataset is sorted ascending by the (location, date) pair. -/
theorem claim_C7_zero_fill_and_sort (rows : List RawRow) :
    ((load_data rows).map (fun d => (d.location, d.date, d.total_cases, d.new_cases))
        = (sortRows rows).map
            (fun r => (r.location, r.date, r.total_cases.getD 0, r.new_cases.getD 0))) ∧
    (load_data rows).length = rows.length ∧
    (load_data rows).Pairwise recLe := by
  refine ⟨?_, ?_, ?_⟩
  · rw [load_data, withAvgAux_map_fields, List.map_map]
    rfl
  · rw [load_data, withAvgAux_length, List.length_map]
    exact List.length_insertionSort rawKeyLe rows
  · have hsort : (sortRows rows).Pairwise rawKeyLe :=
      List.sorted_insertionSort rawKeyLe rows
    have hrow : ((sortRows rows).map fill).Pairwise
        (fun a b : Row => a.location < b.location ∨ (a.location = b.location ∧ a.date ≤ b.date)) :=
      List.pairwise_map.mpr (hsort.imp (fun h => h))
    have hquad : (((sortRows rows).map fill).map
          (fun r => (r.location, r.date, r.total_cases, r.new_cases))).Pairwise
        (fun p q : String × Nat × ℚ × ℚ => p.1 < q.1 ∨ (p.1 = q.1 ∧ p.2.1 ≤ q.2.1)) :=
      List.pairwise_map.mpr (hrow.imp (fun h => h))
    rw [← withAvgAux_map_fields ((sortRows rows).map fill) []] at hquad
    have hback := List.pairwise_map.mp hquad
    rw [load_data]
    exact hback.imp (fun h => h)

/-- C8: every invocation of the recomputation yields a renderable figure: the
"please select" figure when country or metric is falsy, the error figure
carrying the fault's message when a date string fails to parse or the metric
column is unknown, the explicit empty-state figure when no rows match, and the
real chart otherwise — never a propagated exception (the embedding is a total
function into the figure type). -/
theorem claim_C8_always_renderable (data : List DailyRecord)
    (country metric : Option String) (startS endS : String)
    (showAnn showMarkers logToggle : List String) :
    ((truthy country = false ∨ truthy metric = false) →
        update_graph data country metric startS endS showAnn showMarkers logToggle
          = Figure.pleaseSelect) ∧
    (truthy country = true → truthy metric = true →
      (parseDate startS = none →
          update_graph data country metric startS endS showAnn showMarkers logToggle
            = Figure.errorFig ("Error: " ++ dateErrMsg startS)) ∧
      (∀ s, parseDate startS = some s → parseDate endS = none →
          update_graph data country metric startS endS showAnn showMarkers logToggle
            = Figure.errorFig ("Error: " ++ dateErrMsg endS)) ∧
      (∀ s e, parseDate startS = some s → parseDate endS = some e →
        (query data (country.getD "") s e = [] →
            update_graph data country metric startS endS showAnn showMarkers logToggle
              = Figure.noData
                  ("No data available for " ++ country.getD "" ++ " in selected date range")) ∧
        (query data (country.getD "") s e ≠ [] → metricOf (metric.getD "") = none →
            update_graph data country metric startS endS showAnn showMarkers logToggle
              = Figure.errorFig ("Error: " ++ keyErrMsg (metric.getD ""))) ∧
        (∀ m, query data (country.getD "") s e ≠ [] →
            metricOf (metric.getD "") = some m →
            update_graph data country metric startS endS showAnn showMarkers logToggle
              = Figure.chart (metric.getD "" ++ " in " ++ country.getD "")
                  ((query data (country.getD "") s e).map
                    (fun r => (r.date, metricValue r m)))
                  (showMarkers.contains "show") (logToggle.contains "log")
                  (annotate showAnn (country.getD "")
                    (query data (country.getD "") s e) m s e)))) := by
  refine ⟨?_, ?_⟩
  · intro h
    unfold update_graph update_graph_body
    rw [if_pos h]
  · intro hc hm
    have hneg : ¬(truthy country = false ∨ truthy metric = false) := by
      simp [hc, hm]
    refine ⟨?_, ?_, ?_⟩
    · intro hp
      unfold update_graph update_graph_body
      rw [if_neg hneg, hp]
    · intro s hps hpe
      unfold update_graph update_graph_body
      rw [if_neg hneg, hps, hpe]
    · intro s e hps hpe
      refine ⟨?_, ?_, ?_⟩
      · intro hq
        unfold update_graph update_graph_body
        rw [if_neg hneg, hps, hpe]
        dsimp only
        rw [if_pos hq]
      · intro hq hmo
        unfold update_graph update_graph_body
        rw [if_neg hneg, hps, hpe]
        dsimp only
        rw [if_neg hq, hmo]
      · intro m hq hmo
        unfold update_graph update_graph_body
        rw [if_neg hneg, hps, hpe]
        dsimp only
        rw [if_neg hq, hmo]

/-- C8 witness: the characterization theorem applied to concrete inputs — a
real chart for the United States series over August 2021, and the error figure
when the start date string is malformed. -/
theorem claim_C8_witness :
    (update_graph usSeries (some "United States") (some "total_cases")
        "2021-08-01" "2021-08-31" ["show"] [] []
      = Figure.chart ("total_cases" ++ " in " ++ "United States")
          ((query usSeries "United States" 20210801 20210831).map
            (fun r => (r.date, metricValue r Metric.total_cases)))
          false false
          (annotate ["show"] "United States"
            (query usSeries "United States" 20210801 20210831)
            Metric.total_cases 20210801 20210831)) ∧
    (update_graph usSeries (some "United States") (some "total_cases")
        "banana-now" "2021-08-31" ["show"] [] []
      = Figure.errorFig ("Error: " ++ dateErrMsg "banana-now")) :=
  ⟨((claim_C8_always_renderable usSeries (some "United States") (some "total_cases")
        "2021-08-01" "2021-08-31" ["show"] [] []).2 rfl rfl).2.2 20210801 20210831
      rfl rfl |>.2.2 Metric.total_cases (by decide) rfl,
   ((claim_C8_always_renderable usSeries (some "United States") (some "total_cases")
        "banana-now" "2021-08-31" ["show"] [] []).2 rfl rfl).1 rfl⟩

theorem update_graph_chart_inv (data : List DailyRecord)
    (country metric : Option String) (startS endS : String)
    (showAnn showMarkers logToggle : List String)
    (t : String) (p : List (Nat × ℚ)) (mk lg : Bool) (an : List Anno)
    (h : update_graph data country metric startS endS showAnn showMarkers logToggle
        = Figure.chart t p mk lg an) :
    ∃ s e m, parseDate startS = some s ∧ parseDate endS = some e ∧
      metricOf (metric.getD "") = some m ∧
      an = annotate showAnn (country.getD "") (query data (country.getD "") s e) m s e := by
  unfold update_graph update_graph_body at h
  by_cases h0 : truthy country = false ∨ truthy metric = false
  · rw [if_pos h0] at h
    exact absurd h (by simp)
  · rw [if_neg h0] at h
    cases hps : parseDate startS with
    | none => rw [hps] at h; exact absurd h (by simp)
    | some s =>
        rw [hps] at h
        cases hpe : parseDate endS with
        | none => rw [hpe] at h; exact absurd h (by simp)
        | some e =>
            rw [hpe] at h
            dsimp only at h
            by_cases hq : query data (country.getD "") s e = []
            · rw [if_pos hq] at h
              exact absurd h (by simp)
            · rw [if_neg hq] at h
              cases hmo : metricOf (metric.getD "") with
              | none => rw [hmo] at h; exact absurd h (by simp)
              | some m =>
                  rw [hmo] at h
                  dsimp only at h
                  rw [Figure.chart.injEq] at h
                  exact ⟨s, e, m, rfl, rfl, rfl, h.2.2.2.2.symm⟩

/-- C10: whenever the annotations toggle is off (its value list does not
contain 'show'), the annotation step emits zero annotations for every country,
metric, interval and filtered-series length, and consequently every chart the
recomputation produces carries an empty annotation sequence. -/
theorem claim_C10_toggle_off (data : List DailyRecord)
    (country metric : Option String) (startS endS : String)
    (showAnn showMarkers logToggle : List String)
    (hoff : "show" ∉ showAnn) :
    (∀ c filtered m s e, annotate showAnn c filtered m s e = []) ∧
    (∀ t p mk lg an,
      update_graph data country metric startS endS showAnn showMarkers logToggle
          = Figure.chart t p mk lg an → an = []) := by
  have hann : ∀ c filtered m s e, annotate showAnn c filtered m s e = [] := by
    intro c filtered m s e
    rw [annotate, if_neg]
    rintro ⟨hs, _, _⟩
    exact hoff hs
  refine ⟨hann, ?_⟩
  intro t p mk lg an h
  obtain ⟨s, e, m, _, _, _, han⟩ :=
    update_graph_chart_inv data country metric startS endS showAnn showMarkers
      logToggle t p mk lg an h
  rw [han]
  exact hann _ _ _ _ _

/-- C10 witness: with the toggle off, the United States series with both event
dates inside the interval still yields zero annotations. -/
theorem claim_C10_witness :
    annotate [] "United States" usSeries Metric.total_cases 20210801 20220201 = [] :=
  (claim_C10_toggle_off usSeries (some "United States") (some "total_cases")
      "2021-08-01" "2022-02-01" [] [] [] (by decide)).1
    "United States" usSeries Metric.total_cases 20210801 20220201

end CovidDashboard
